import Mathlib

/-!
Verification of the touch-gesture recognition and modal-navigation logic of
the ComfyBros media viewer. The definitions below are shallow embeddings of
the JavaScript in src/web/src/lib/gestures.js, src/web/src/lib/Modal.svelte
and src/web/gallery.js: machine numbers become Int/Nat, nullable variables
become Option, DOM-callback state becomes explicit state passing, and the
setTimeout-based debouncing becomes an explicit timed step function.
-/

namespace ComfyBros

/-- JavaScript truthiness test for a possibly-null numeric variable: the
guard if (!startX) in gestures.js is true when startX is null/undefined or
when it is the number 0. -/
def falsy : Option Int → Bool
| none => true
| some v => v == 0

/-- The four swipe callbacks of the swipe action in gestures.js. -/
inductive SwipeEvent
| left
| right
| up
| down
deriving DecidableEq, Repr

/-- Direction class of a swipe callback: up/down are the vertical pair. -/
def SwipeEvent.isVertical : SwipeEvent → Bool
| SwipeEvent.up => true
| SwipeEvent.down => true
| _ => false

/-- Mutable closure state of the swipe action in gestures.js:
startX, startY (null after a reset), startTime and the isScrolling flag. -/
structure SwipeState where
  startX : Option Int
  startY : Option Int
  startTime : Nat
  isScrolling : Bool
deriving DecidableEq, Repr

/-- State before any touch event: startX/startY are undefined (modelled as
none, which the truthiness guard treats the same as null). -/
def initialSwipe : SwipeState :=
  { startX := none, startY := none, startTime := 0, isScrolling := false }

/-- handleTouchStart of gestures.js: a multi-touch start nulls startX and
startY; a single-touch start records the coordinates and time and clears
isScrolling. The multi flag embeds event.touches.length greater than 1. -/
def handleTouchStart (multi : Bool) (x y : Int) (t : Nat) (s : SwipeState) : SwipeState :=
  if multi then { s with startX := none, startY := none }
  else { startX := some x, startY := some y, startTime := t, isScrolling := false }

/-- handleTouchMove of gestures.js: returns early when startX or startY is
falsy, nulls them on a multi-touch, otherwise updates isScrolling from the
absolute deltas exactly as the three if-branches of the source do. -/
def handleTouchMove (multi : Bool) (x y : Int) (s : SwipeState) : SwipeState :=
  if falsy s.startX || falsy s.startY then s
  else if multi then { s with startX := none, startY := none }
  else
    let deltaX := (x - s.startX.getD 0).natAbs
    let deltaY := (y - s.startY.getD 0).natAbs
    if deltaY > deltaX ∧ deltaY > 10 then { s with isScrolling := false }
    else if deltaX > deltaY ∧ deltaX > 10 then { s with isScrolling := false }
    else if deltaY > 10 ∧ deltaX < 10 then { s with isScrolling := true }
    else s

/-- handleTouchEnd of gestures.js: returns early when startX or startY is
falsy; otherwise computes the signed final deltas and the duration, resets
startX/startY, rejects scrolls and slow gestures, and emits at most one
swipe callback with vertical taking priority over horizontal. -/
def handleTouchEnd (x y : Int) (t : Nat) (threshold timeLimit : Nat) (s : SwipeState) :
    SwipeState × Option SwipeEvent :=
  if falsy s.startX || falsy s.startY then (s, none)
  else
    let deltaX := x - s.startX.getD 0
    let deltaY := y - s.startY.getD 0
    let duration := t - s.startTime
    let s1 := { s with startX := none, startY := none }
    if s.isScrolling ∨ duration > timeLimit then (s1, none)
    else if deltaY.natAbs > threshold then
      if deltaY > 0 then (s1, some SwipeEvent.down) else (s1, some SwipeEvent.up)
    else if deltaX.natAbs > threshold then
      if deltaX > 0 then (s1, some SwipeEvent.right) else (s1, some SwipeEvent.left)
    else (s1, none)

/-- A stream of touchmove events, each with its multi-touch flag and
coordinates, applied in order. -/
def applyMoves (moves : List (Bool × Int × Int)) (s : SwipeState) : SwipeState :=
  List.foldl (fun st m => handleTouchMove m.1 m.2.1 m.2.2 st) s moves

/-- A stream of single-touch touchmove events applied in order. -/
def applySingleMoves (moves : List (Int × Int)) (s : SwipeState) : SwipeState :=
  List.foldl (fun st m => handleTouchMove false m.1 m.2 st) s moves

/-- The event emitted by a completed single-touch gesture: touchstart at
(sx, sy) at time 0, the given single-touch moves, then touchend at
(ex, ey) at time t, with the default threshold 50 and time limit 500. -/
def completedGesture (sx sy ex ey : Int) (t : Nat) (moves : List (Int × Int))
    (s0 : SwipeState) : Option SwipeEvent :=
  (handleTouchEnd ex ey t 50 500 (applySingleMoves moves (handleTouchStart false sx sy 0 s0))).2

/-- Component state of Modal.svelte: the script-level variables that the
navigation, pinch and double-tap handlers read and write, together with the
length of the filteredMedia store and the currentIndex store value. -/
structure ModalState where
  isTransitioning : Bool
  isZoomed : Bool
  isDoubleTabZoomed : Bool
  isPinching : Bool
  activeTouches : Nat
  currentIndex : Int
  filteredLen : Nat
deriving DecidableEq, Repr

/-- navigate of Modal.svelte: blocked while transitioning or zoomed,
otherwise sets isTransitioning, resets the zoom flags, computes the wrapped
new index from currentIndex plus direction, and sets the currentIndex
store. The Bool reports whether currentIndex.set was reached (an
index-change notification; Svelte stores notify even on an equal value). -/
def navigate (direction : Int) (s : ModalState) : ModalState × Bool :=
  if s.isTransitioning || s.isZoomed then (s, false)
  else
    let maxIndex : Int := (s.filteredLen : Int) - 1
    let i0 := s.currentIndex + direction
    let newIndex := if i0 < 0 then maxIndex else if i0 > maxIndex then 0 else i0
    ({ s with isTransitioning := true, isZoomed := false, isDoubleTabZoomed := false,
              isPinching := false, activeTouches := 0, currentIndex := newIndex }, true)

/-- handleTouchStart of Modal.svelte: records the touch count and, when it
is exactly two, marks a pinch and disables navigation via isZoomed. -/
def handleTouchStartM (touches : Nat) (s : ModalState) : ModalState :=
  let s1 := { s with activeTouches := touches }
  if s1.activeTouches == 2 then { s1 with isPinching := true, isZoomed := true } else s1

/-- handleTouchMove of Modal.svelte: a two-finger move marks a pinch. -/
def handleTouchMoveM (touches : Nat) (s : ModalState) : ModalState :=
  if touches == 2 then { s with isPinching := true, isZoomed := true } else s

/-- handleTouchEnd of Modal.svelte: records the remaining touch count; the
Bool reports whether the 300ms settle timeout was scheduled (all touches
ended). The timeout body itself is pinchSettle. -/
def handleTouchEndM (touches : Nat) (s : ModalState) : ModalState × Bool :=
  let s1 := { s with activeTouches := touches }
  (s1, s1.activeTouches == 0)

/-- Body of the 300ms settle timeout in handleTouchEnd of Modal.svelte: it
clears isZoomed only when, at fire time, no touch is active, isPinching is
false and no double-tap zoom is held; afterwards it clears isPinching. -/
def pinchSettle (s : ModalState) : ModalState :=
  let s1 :=
    if s.activeTouches == 0 && !s.isPinching && !s.isDoubleTabZoomed
    then { s with isZoomed := false } else s
  { s1 with isPinching := false }

/-- Timed view of the Modal navigation debounce: the component state plus
the fire time of the pending setTimeout that clears isTransitioning. -/
structure TimedNav where
  modal : ModalState
  resetAt : Option Nat
deriving DecidableEq, Repr

/-- Fire the pending isTransitioning reset if its 300ms deadline has
passed at the current time. -/
def fireReset (now : Nat) (ts : TimedNav) : TimedNav :=
  match ts.resetAt with
  | none => ts
  | some tf =>
      if tf ≤ now then { modal := { ts.modal with isTransitioning := false }, resetAt := none }
      else ts

/-- A navigate call at wall-clock time now: any due timer fires first, then
navigate runs; an accepted navigation schedules the isTransitioning reset
300ms later, exactly as the setTimeout at the end of navigate does. -/
def navigateAt (now : Nat) (d : Int) (ts : TimedNav) : TimedNav × Bool :=
  let ts1 := fireReset now ts
  let r := navigate d ts1.modal
  if r.2 then ({ modal := r.1, resetAt := some (now + 300) }, true)
  else ({ modal := r.1, resetAt := ts1.resetAt }, false)

/-- Double-tap state of Modal.svelte: lastTap and the two zoom flags that
toggleDoubleTabZoom writes (modelled with the media element loaded, so the
early return on a null mediaElement is not taken). -/
structure TapState where
  lastTap : Nat
  isDoubleTabZoomed : Bool
  isZoomed : Bool
deriving DecidableEq, Repr

/-- toggleDoubleTabZoom of Modal.svelte: flips isDoubleTabZoomed and copies
it into isZoomed (the scale-2x side effect is a rendering concern). -/
def toggleDoubleTabZoom (s : TapState) : TapState :=
  { s with isDoubleTabZoomed := !s.isDoubleTabZoomed, isZoomed := !s.isDoubleTabZoomed }

/-- handleDoubleTap of Modal.svelte: computes the gap since lastTap,
toggles the double-tap zoom when the gap is strictly between 50ms and
500ms, and in every case stores the current time into lastTap. The Bool
reports whether a double tap was recognized. -/
def handleDoubleTap (currentTime : Nat) (s : TapState) : TapState × Bool :=
  let tapLength := currentTime - s.lastTap
  if tapLength < 500 ∧ tapLength > 50 then
    ({ toggleDoubleTabZoom s with lastTap := currentTime }, true)
  else
    ({ s with lastTap := currentTime }, false)

/-- Outcome of deleteCurrentMedia after a successful server delete: either
the modal closes or it stays open at the adjusted index. -/
inductive ViewerOutcome
| closedViewer
| openAt (newIndex : Nat)
deriving DecidableEq, Repr

/-- State-update logic of deleteCurrentMedia in Modal.svelte (after the
server responds ok): the filteredMedia entry at currentIdx is filtered out;
if nothing remains the modal closes, otherwise currentIndex is pulled back
to the last position when it fell off the end of the shortened array. -/
def deleteCurrentMedia (media : List Nat) (currentIdx : Nat) : ViewerOutcome :=
  let newArray := media.eraseIdx currentIdx
  if newArray.length = 0 then ViewerOutcome.closedViewer
  else ViewerOutcome.openAt (if currentIdx ≥ newArray.length then newArray.length - 1 else currentIdx)

/-- State of the legacy MediaGallery viewer in gallery.js that
navigateModal reads and writes. -/
structure GalleryState where
  currentIndex : Int
  filteredLen : Nat
deriving DecidableEq, Repr

/-- navigateModal of gallery.js: returns immediately when the collection
has at most one item, otherwise wraps the incremented index circularly and
reopens the modal at it. The Bool reports whether openModal was called. -/
def navigateModal (direction : Int) (g : GalleryState) : GalleryState × Bool :=
  if g.filteredLen ≤ 1 then (g, false)
  else
    let i0 := g.currentIndex + direction
    let i1 := if i0 < 0 then (g.filteredLen : Int) - 1
              else if i0 ≥ (g.filteredLen : Int) then 0 else i0
    ({ currentIndex := i1, filteredLen := g.filteredLen }, true)

/-- A nonzero coordinate is truthy. -/
theorem falsy_some_eq_false (a : Int) (h : a ≠ 0) : falsy (some a) = false := by
  simp [falsy, h]

/-- With a falsy start coordinate, handleTouchMove returns early and leaves
the state untouched. -/
theorem handleTouchMove_falsy (m : Bool) (x y : Int) (s : SwipeState)
    (h : (falsy s.startX || falsy s.startY) = true) :
    handleTouchMove m x y s = s := by
  unfold handleTouchMove
  simp [h]

/-- With a falsy start coordinate, a whole stream of touchmove events
leaves the state untouched. -/
theorem applyMoves_falsy (moves : List (Bool × Int × Int)) (s : SwipeState)
    (h : (falsy s.startX || falsy s.startY) = true) :
    applyMoves moves s = s := by
  induction moves with
  | nil => rfl
  | cons m ms ih =>
      unfold applyMoves at ih ⊢
      rw [List.foldl_cons, handleTouchMove_falsy m.1 m.2.1 m.2.2 s h]
      exact ih

/-- A single-touch move over a tracked gesture with truthy start
coordinates changes nothing: the two navigation branches rewrite
isScrolling to the false it already is, and the scroll branch is
unreachable because its test deltaY greater than 10 and deltaX less than
10 already implies the first branch fired. -/
theorem handleTouchMove_single (a b x y : Int) (t : Nat) (ha : a ≠ 0) (hb : b ≠ 0) :
    handleTouchMove false x y ⟨some a, some b, t, false⟩ = ⟨some a, some b, t, false⟩ := by
  unfold handleTouchMove
  simp only [falsy_some_eq_false a ha, falsy_some_eq_false b hb, Bool.or_self,
    Bool.false_eq_true, if_false, Option.getD_some]
  split
  · rfl
  · split
    · rfl
    · split
      · exfalso
        omega
      · rfl

/-- A stream of single-touch moves over a tracked gesture with truthy
start coordinates changes nothing. -/
theorem applySingleMoves_single (a b : Int) (t : Nat) (ha : a ≠ 0) (hb : b ≠ 0)
    (moves : List (Int × Int)) :
    applySingleMoves moves ⟨some a, some b, t, false⟩ = ⟨some a, some b, t, false⟩ := by
  induction moves with
  | nil => rfl
  | cons m ms ih =>
      unfold applySingleMoves at ih ⊢
      rw [List.foldl_cons, handleTouchMove_single a b m.1 m.2 t ha hb]
      exact ih

/-- C1 counterexample: the gesture from (100,100) to (200,160) in 400ms has
final deltas dx of 100 and dy of 60, so both exceed the 50px threshold and
dx strictly dominates dy; the claim classifies it Horizontal, yet
gestures.js emits the vertical onSwipeDown callback, because its
handleTouchEnd gives vertical swipes priority whenever the absolute dy
exceeds the threshold, regardless of the relative magnitudes. -/
theorem C1_axis_counterexample :
    ((200 - 100 : Int).natAbs > (160 - 100 : Int).natAbs ∧
     50 ≤ (200 - 100 : Int).natAbs ∧ 50 ≤ (160 - 100 : Int).natAbs ∧ (400 : Nat) ≤ 500) ∧
    completedGesture 100 100 200 160 400 [] initialSwipe = some SwipeEvent.down ∧
    SwipeEvent.isVertical SwipeEvent.down = true := by
  decide

/-- C1 amended: for every completed single-touch gesture in gestures.js
starting at truthy coordinates with duration at most 500ms, exactly one
swipe callback fires if and only if max of the absolute final deltas
strictly exceeds the 50px threshold; the axis is Vertical whenever the
absolute dy exceeds 50 regardless of dx (down for positive dy, up
otherwise), and Horizontal only when the absolute dy is at most 50 and the
absolute dx exceeds 50 (right for positive dx, left otherwise). -/
theorem C1_swipe_axis_amended (sx sy ex ey : Int) (t : Nat) (moves : List (Int × Int))
    (s0 : SwipeState) (hsx : sx ≠ 0) (hsy : sy ≠ 0) (ht : t ≤ 500) :
    ((completedGesture sx sy ex ey t moves s0).isSome ↔
      50 < (ex - sx).natAbs ∨ 50 < (ey - sy).natAbs) ∧
    (50 < (ey - sy).natAbs →
      completedGesture sx sy ex ey t moves s0 =
        some (if 0 < ey - sy then SwipeEvent.down else SwipeEvent.up)) ∧
    ((ey - sy).natAbs ≤ 50 → 50 < (ex - sx).natAbs →
      completedGesture sx sy ex ey t moves s0 =
        some (if 0 < ex - sx then SwipeEvent.right else SwipeEvent.left)) := by
  have hstart : handleTouchStart false sx sy 0 s0 = ⟨some sx, some sy, 0, false⟩ := rfl
  unfold completedGesture
  rw [hstart, applySingleMoves_single sx sy 0 hsx hsy moves]
  unfold handleTouchEnd
  simp only [falsy_some_eq_false sx hsx, falsy_some_eq_false sy hsy, Bool.or_self,
    Bool.false_eq_true, if_false, Option.getD_some, Nat.sub_zero]
  have hdur : ¬(False ∨ t > 500) := by
    simp
    omega
  rw [if_neg hdur]
  refine ⟨?_, ?_, ?_⟩
  · split_ifs with h1 h2 h3 h4 <;> simp <;> omega
  · intro hv
    rw [if_pos hv]
    split <;> rfl
  · intro hvle hh
    have hnv : ¬((ey - sy).natAbs > 50) := by omega
    rw [if_neg hnv, if_pos hh]
    split <;> rfl

/-- C1 amended witness: the counterexample gesture instantiates the
amended theorem; the vertical branch applies since dy is 60. -/
theorem C1_swipe_axis_amended_witness :
    completedGesture 100 100 200 160 400 [] initialSwipe = some SwipeEvent.down := by
  have h := C1_swipe_axis_amended 100 100 200 160 400 [] initialSwipe
    (by decide) (by decide) (by decide)
  simpa using h.2.1 (by decide)

/-- C2: navigation in Modal.svelte is circular: when the viewer holds a
collection of length greater than one and navigation is not blocked,
navigate 1 at the last index wraps to 0 and navigate -1 at index 0 wraps
to the last index; and for every direction whatsoever the resulting
currentIndex stays inside the interval from 0 to the length. -/
theorem C2_circular_navigation (s : ModalState) (hlen : 1 < s.filteredLen)
    (hlo : 0 ≤ s.currentIndex) (hhi : s.currentIndex < (s.filteredLen : Int)) :
    (s.isTransitioning = false → s.isZoomed = false →
      (s.currentIndex = (s.filteredLen : Int) - 1 → (navigate 1 s).1.currentIndex = 0) ∧
      (s.currentIndex = 0 → (navigate (-1) s).1.currentIndex = (s.filteredLen : Int) - 1)) ∧
    (∀ d : Int, 0 ≤ (navigate d s).1.currentIndex ∧
      (navigate d s).1.currentIndex < (s.filteredLen : Int)) := by
  constructor
  · intro hT hZ
    constructor
    · intro hidx
      simp only [navigate, hT, hZ, Bool.or_self, Bool.false_eq_true, if_false]
      split_ifs <;> omega
    · intro hidx
      simp only [navigate, hT, hZ, Bool.or_self, Bool.false_eq_true, if_false]
      split_ifs <;> omega
  · intro d
    cases hT : s.isTransitioning <;> cases hZ : s.isZoomed <;>
      simp only [navigate, hT, hZ, Bool.or_self, Bool.or_true, Bool.true_or,
        Bool.false_eq_true, if_false, if_true] <;>
      first
        | exact ⟨hlo, hhi⟩
        | (split_ifs <;> constructor <;> omega)

/-- C2 witness: on a three-item collection with navigation unblocked,
navigate 1 at index 2 wraps to 0 and navigate -1 at index 0 wraps to 2. -/
theorem C2_circular_navigation_witness :
    (navigate 1 ⟨false, false, false, false, 0, 2, 3⟩).1.currentIndex = 0 ∧
    (navigate (-1) ⟨false, false, false, false, 0, 0, 3⟩).1.currentIndex = 2 := by
  have h1 := C2_circular_navigation ⟨false, false, false, false, 0, 2, 3⟩
    (by decide) (by decide) (by decide)
  have h2 := C2_circular_navigation ⟨false, false, false, false, 0, 0, 3⟩
    (by decide) (by decide) (by decide)
  exact ⟨by simpa using (h1.1 rfl rfl).1 (by decide), by simpa using (h2.1 rfl rfl).2 rfl⟩

/-- C3: zoom exclusivity: whenever isZoomed is true, navigate returns the
state completely unchanged and reaches no currentIndex set, whatever the
direction; swipe callbacks, arrow keys and the prev/next helpers all go
through this navigate. -/
theorem C3_zoom_blocks_navigation (s : ModalState) (d : Int) (h : s.isZoomed = true) :
    navigate d s = (s, false) := by
  simp [navigate, h]

/-- C3 witness: a zoomed three-item viewer at index 1 ignores navigate 1. -/
theorem C3_zoom_blocks_navigation_witness :
    navigate 1 ⟨false, true, false, false, 0, 1, 3⟩ = (⟨false, true, false, false, 0, 1, 3⟩, false) :=
  C3_zoom_blocks_navigation ⟨false, true, false, false, 0, 1, 3⟩ 1 rfl

/-- C4: evaluation of the pinch handlers of Modal.svelte on the first
pinch-and-release sequence: touchstart with two fingers, then touchend
down to one and to zero fingers (which schedules the 300ms settle
timeout), then the timeout body. No double-tap zoom is held, yet after the
settle fires isZoomed is still true, because the timeout tests isPinching
before clearing it in the same callback; the spec says the mode returns to
None after the settle delay. -/
theorem C4_pinch_settle_bug :
    ((handleTouchEndM 0 ((handleTouchEndM 1 (handleTouchStartM 2
        ⟨false, false, false, false, 0, 0, 3⟩)).1)).2 = true) ∧
    (handleTouchEndM 0 ((handleTouchEndM 1 (handleTouchStartM 2
        ⟨false, false, false, false, 0, 0, 3⟩)).1)).1.isDoubleTabZoomed = false ∧
    (pinchSettle ((handleTouchEndM 0 ((handleTouchEndM 1 (handleTouchStartM 2
        ⟨false, false, false, false, 0, 0, 3⟩)).1)).1)).isZoomed = true ∧
    (pinchSettle ((handleTouchEndM 0 ((handleTouchEndM 1 (handleTouchStartM 2
        ⟨false, false, false, false, 0, 0, 3⟩)).1)).1)).isPinching = false := by
  decide

/-- An unblocked navigate call is accepted: it reaches the currentIndex
set, raises isTransitioning and leaves the zoom flags cleared. -/
theorem navigate_accepted_flag (d : Int) (s : ModalState) (hT : s.isTransitioning = false)
    (hZ : s.isZoomed = false) :
    (navigate d s).2 = true ∧ (navigate d s).1.isTransitioning = true ∧
    (navigate d s).1.isZoomed = false := by
  simp [navigate, hT, hZ]

/-- A navigate call while isTransitioning holds is a complete no-op. -/
theorem navigate_blocked (d : Int) (s : ModalState) (h : s.isTransitioning = true) :
    navigate d s = (s, false) := by
  simp [navigate, h]

/-- C5: transition debounce: starting from an idle viewer with no pending
timer, a first navigate at time t1 is accepted; a second navigate issued
at t2 before the 300ms settle window of the first has elapsed is a no-op
leaving the component state untouched; and a third navigate at t3 after
the window has elapsed is accepted again, the timer having cleared
isTransitioning. -/
theorem C5_transition_debounce (ts : TimedNav) (t1 t2 t3 : Nat) (d1 d2 d3 : Int)
    (h0 : ts.resetAt = none) (hT : ts.modal.isTransitioning = false)
    (hZ : ts.modal.isZoomed = false)
    (hwin : t2 < t1 + 300) (h3 : t1 + 300 ≤ t3) :
    (navigateAt t1 d1 ts).2 = true ∧
    (navigateAt t2 d2 (navigateAt t1 d1 ts).1).2 = false ∧
    (navigateAt t2 d2 (navigateAt t1 d1 ts).1).1.modal = (navigateAt t1 d1 ts).1.modal ∧
    (navigateAt t3 d3 (navigateAt t2 d2 (navigateAt t1 d1 ts).1).1).2 = true := by
  have hfr1 : fireReset t1 ts = ts := by
    unfold fireReset
    rw [h0]
  have hacc1 := navigate_accepted_flag d1 ts.modal hT hZ
  have hstep1 : navigateAt t1 d1 ts =
      ({ modal := (navigate d1 ts.modal).1, resetAt := some (t1 + 300) }, true) := by
    simp [navigateAt, hfr1, hacc1.1]
  have hfr2 : fireReset t2
      ({ modal := (navigate d1 ts.modal).1, resetAt := some (t1 + 300) } : TimedNav) =
      { modal := (navigate d1 ts.modal).1, resetAt := some (t1 + 300) } := by
    unfold fireReset
    simp only
    rw [if_neg (by omega)]
  have hb2 := navigate_blocked d2 (navigate d1 ts.modal).1 hacc1.2.1
  have hstep2 : navigateAt t2 d2
      ({ modal := (navigate d1 ts.modal).1, resetAt := some (t1 + 300) } : TimedNav) =
      ({ modal := (navigate d1 ts.modal).1, resetAt := some (t1 + 300) }, false) := by
    simp [navigateAt, hfr2, hb2]
  have hfr3 : fireReset t3
      ({ modal := (navigate d1 ts.modal).1, resetAt := some (t1 + 300) } : TimedNav) =
      { modal := { (navigate d1 ts.modal).1 with isTransitioning := false }, resetAt := none } := by
    unfold fireReset
    simp only
    rw [if_pos h3]
  have hZ2 : ({ (navigate d1 ts.modal).1 with isTransitioning := false } : ModalState).isZoomed
      = false := by
    simpa using hacc1.2.2
  have hacc3 := navigate_accepted_flag d3
    { (navigate d1 ts.modal).1 with isTransitioning := false } rfl hZ2
  have hstep3 : (navigateAt t3 d3
      ({ modal := (navigate d1 ts.modal).1, resetAt := some (t1 + 300) } : TimedNav)).2 = true := by
    simp [navigateAt, hfr3, hacc3.1]
  refine ⟨?_, ?_, ?_, ?_⟩ <;> simp [hstep1, hstep2, hstep3]

/-- C5 witness: on an idle three-item viewer, navigate calls at 0ms, 100ms
and 400ms: the second is a no-op, the third is accepted. -/
theorem C5_transition_debounce_witness :
    (navigateAt 100 1 (navigateAt 0 1 ⟨⟨false, false, false, false, 0, 0, 3⟩, none⟩).1).2 = false ∧
    (navigateAt 400 1 (navigateAt 100 1
      (navigateAt 0 1 ⟨⟨false, false, false, false, 0, 0, 3⟩, none⟩).1).1).2 = true := by
  have h := C5_transition_debounce ⟨⟨false, false, false, false, 0, 0, 3⟩, none⟩ 0 100 400 1 1 1
    rfl rfl rfl (by decide) (by decide)
  exact ⟨h.2.1, h.2.2.2⟩

/-- On a gap outside the 50ms to 500ms window, handleDoubleTap only
records the tap time. -/
theorem handleDoubleTap_miss (tNow : Nat) (s : TapState)
    (h : tNow - s.lastTap ≤ 50 ∨ 500 ≤ tNow - s.lastTap) :
    handleDoubleTap tNow s = ({ s with lastTap := tNow }, false) := by
  unfold handleDoubleTap
  dsimp only
  rw [if_neg (by omega)]

/-- On a gap strictly inside the 50ms to 500ms window, handleDoubleTap
toggles the double-tap zoom and records the tap time. -/
theorem handleDoubleTap_hit (tNow : Nat) (s : TapState)
    (hl : 50 < tNow - s.lastTap) (hh : tNow - s.lastTap < 500) :
    handleDoubleTap tNow s = ({ toggleDoubleTabZoom s with lastTap := tNow }, true) := by
  unfold handleDoubleTap
  dsimp only
  rw [if_pos ⟨hh, hl⟩]

/-- C6 counterexample: three clicks at 1000ms, 1200ms and 1400ms, each
pair 200ms apart: the second is recognized as a double tap, yet lastTap is
then 1200 rather than the 0 the claim requires, and consequently the third
click is recognized as a second double tap with the second click. -/
theorem C6_third_tap_counterexample :
    (handleDoubleTap 1200 (handleDoubleTap 1000 ⟨0, false, false⟩).1).2 = true ∧
    (handleDoubleTap 1200 (handleDoubleTap 1000 ⟨0, false, false⟩).1).1.lastTap = 1200 ∧
    (handleDoubleTap 1400
      (handleDoubleTap 1200 (handleDoubleTap 1000 ⟨0, false, false⟩).1).1).2 = true := by
  decide

/-- C6 amended: handleDoubleTap stores the current time into lastTap on
every tap, including a recognized double tap (the pair is not consumed):
for any three taps with both consecutive gaps strictly between 50ms and
500ms, both the second and the third tap are recognized as double taps,
and after the second tap lastTap equals the time of that tap. -/
theorem C6_lastTap_amended (t1 g2 g3 : Nat) (h1 : 500 ≤ t1)
    (hg2l : 50 < g2) (hg2h : g2 < 500) (hg3l : 50 < g3) (hg3h : g3 < 500) :
    (handleDoubleTap (t1 + g2) (handleDoubleTap t1 ⟨0, false, false⟩).1).2 = true ∧
    (handleDoubleTap (t1 + g2) (handleDoubleTap t1 ⟨0, false, false⟩).1).1.lastTap = t1 + g2 ∧
    (handleDoubleTap (t1 + g2 + g3)
      (handleDoubleTap (t1 + g2) (handleDoubleTap t1 ⟨0, false, false⟩).1).1).2 = true := by
  have e1 : handleDoubleTap t1 ⟨0, false, false⟩ = (⟨t1, false, false⟩, false) := by
    simpa using handleDoubleTap_miss t1 ⟨0, false, false⟩ (by simp; omega)
  rw [e1]
  dsimp only
  have e2 : handleDoubleTap (t1 + g2) ⟨t1, false, false⟩ = (⟨t1 + g2, true, true⟩, true) := by
    simpa [toggleDoubleTabZoom] using
      handleDoubleTap_hit (t1 + g2) ⟨t1, false, false⟩ (by simp; omega) (by simp; omega)
  rw [e2]
  dsimp only
  have e3 : handleDoubleTap (t1 + g2 + g3) ⟨t1 + g2, true, true⟩ =
      (⟨t1 + g2 + g3, false, false⟩, true) := by
    simpa [toggleDoubleTabZoom] using
      handleDoubleTap_hit (t1 + g2 + g3) ⟨t1 + g2, true, true⟩ (by simp; omega) (by simp; omega)
  rw [e3]
  exact ⟨rfl, rfl, rfl⟩

/-- C6 amended witness: the three taps at 1000ms, 1200ms and 1400ms. -/
theorem C6_lastTap_amended_witness :
    (handleDoubleTap 1400
      (handleDoubleTap 1200 (handleDoubleTap 1000 ⟨0, false, false⟩).1).1).2 = true := by
  have h := C6_lastTap_amended 1000 200 200 (by decide) (by decide) (by decide)
    (by decide) (by decide)
  exact h.2.2

/-- C7: the double-tap window: with lastTap initially 0 and a first tap at
clock time t1 at least 500ms (a real clock), the first tap is not a double
tap, and a second tap after a further gap g is recognized as a double tap,
toggling the zoom on, exactly when g is strictly between 50ms and 500ms;
otherwise it is an independent plain tap. -/
theorem C7_double_tap_window (t1 g : Nat) (h1 : 500 ≤ t1) :
    (handleDoubleTap t1 ⟨0, false, false⟩).2 = false ∧
    ((handleDoubleTap (t1 + g) (handleDoubleTap t1 ⟨0, false, false⟩).1).2 = true ↔
      50 < g ∧ g < 500) ∧
    ((handleDoubleTap (t1 + g) (handleDoubleTap t1 ⟨0, false, false⟩).1).2 = true →
      (handleDoubleTap (t1 + g) (handleDoubleTap t1 ⟨0, false, false⟩).1).1.isZoomed = true) := by
  have e1 : handleDoubleTap t1 ⟨0, false, false⟩ = (⟨t1, false, false⟩, false) := by
    simpa using handleDoubleTap_miss t1 ⟨0, false, false⟩ (by simp; omega)
  rw [e1]
  dsimp only
  by_cases hg : 50 < g ∧ g < 500
  · have e2 : handleDoubleTap (t1 + g) ⟨t1, false, false⟩ = (⟨t1 + g, true, true⟩, true) := by
      simpa [toggleDoubleTabZoom] using
        handleDoubleTap_hit (t1 + g) ⟨t1, false, false⟩ (by simp; omega) (by simp; omega)
    rw [e2]
    simp [hg]
  · have e3 : handleDoubleTap (t1 + g) ⟨t1, false, false⟩ = (⟨t1 + g, false, false⟩, false) := by
      simpa using handleDoubleTap_miss (t1 + g) ⟨t1, false, false⟩ (by simp; omega)
    rw [e3]
    simp [hg]

/-- C7 witness: taps at 1000ms and 1200ms give one recognized double tap. -/
theorem C7_double_tap_window_witness :
    (handleDoubleTap 1200 (handleDoubleTap 1000 ⟨0, false, false⟩).1).2 = true := by
  have h := C7_double_tap_window 1000 200 (by decide)
  exact h.2.1.mpr (by decide)

/-- C8 counterexample: navigate in Modal.svelte has no length guard: on an
unblocked one-item viewer at index 0, navigate 1 leaves the index value at
0 (the wrap maps it back), but it sets isTransitioning and reaches the
currentIndex set, so the call is not the claimed complete no-op. -/
theorem C8_single_item_counterexample :
    (navigate 1 ⟨false, false, false, false, 0, 0, 1⟩).1.currentIndex = 0 ∧
    (navigate 1 ⟨false, false, false, false, 0, 0, 1⟩).1.isTransitioning = true ∧
    (navigate 1 ⟨false, false, false, false, 0, 0, 1⟩).2 = true := by
  decide

/-- C8 amended: on a collection of length at most one, navigateModal in
gallery.js is a complete no-op, returning the state unchanged with no
openModal call; navigate in Modal.svelte, which has no length guard, still
leaves the currentIndex value unchanged at 0 on a one-item collection for
both directions, but it sets isTransitioning and issues an index
notification (shown by the counterexample). -/
theorem C8_single_item_amended (g : GalleryState) (s : ModalState) (d : Int)
    (hg : g.filteredLen ≤ 1) (hs : s.filteredLen = 1) (hidx : s.currentIndex = 0)
    (hd : d = 1 ∨ d = -1) :
    navigateModal d g = (g, false) ∧
    (navigate d s).1.currentIndex = 0 := by
  constructor
  · simp [navigateModal, hg]
  · rcases hd with rfl | rfl <;>
      cases hT : s.isTransitioning <;> cases hZ : s.isZoomed <;>
      simp [navigate, hT, hZ, hidx, hs]

/-- C8 amended witness: a one-item gallery and a one-item unblocked modal
viewer, navigating forward. -/
theorem C8_single_item_amended_witness :
    navigateModal 1 ⟨0, 1⟩ = (⟨0, 1⟩, false) ∧
    (navigate 1 ⟨false, false, false, false, 0, 0, 1⟩).1.currentIndex = 0 :=
  C8_single_item_amended ⟨0, 1⟩ ⟨false, false, false, false, 0, 0, 1⟩ 1
    (by decide) rfl rfl (Or.inl rfl)

/-- C9: deleteCurrentMedia closes the viewer exactly when the collection
becomes empty; otherwise the new index is the clamp of the old index to
the last position of the shortened collection, with no circular wrap, and
it is always strictly below the new length (and never exceeds the old
index, in particular never negative in the Nat model). -/
theorem C9_delete_clamps (media : List Nat) (i : Nat) :
    ((media.eraseIdx i).length = 0 → deleteCurrentMedia media i = ViewerOutcome.closedViewer) ∧
    (∀ n, (media.eraseIdx i).length = n + 1 →
      deleteCurrentMedia media i = ViewerOutcome.openAt (min i n) ∧
      min i n < n + 1 ∧ min i n ≤ i) := by
  constructor
  · intro h
    simp [deleteCurrentMedia, h]
  · intro n h
    have harr : ¬((media.eraseIdx i).length = 0) := by omega
    have hval : (if i ≥ (media.eraseIdx i).length then (media.eraseIdx i).length - 1 else i)
        = min i n := by
      rw [h]
      split_ifs <;> omega
    refine ⟨?_, by omega, by omega⟩
    simp [deleteCurrentMedia, harr, hval]

/-- C9 witness: deleting the only item closes the viewer; deleting the
last of three items clamps the index from 2 to 1. -/
theorem C9_delete_clamps_witness :
    deleteCurrentMedia [7] 0 = ViewerOutcome.closedViewer ∧
    deleteCurrentMedia [7, 8, 9] 2 = ViewerOutcome.openAt 1 := by
  refine ⟨(C9_delete_clamps [7] 0).1 (by decide), ?_⟩
  have h := ((C9_delete_clamps [7, 8, 9] 2).2 1 (by decide)).1
  simpa using h

/-- C10: a single-touch gesture whose start has clientX equal to 0 or
clientY equal to 0 is never recognized: the truthiness guard on startX and
startY makes every later touchmove leave the state untouched and makes
touchend return early, so no swipe callback can fire, whatever the moves,
the end point, the timing, the threshold or the time limit. -/
theorem C10_zero_start_never_recognized (sx sy : Int) (h : sx = 0 ∨ sy = 0) (t0 : Nat)
    (moves : List (Bool × Int × Int)) (ex ey : Int) (te th tl : Nat) (s0 : SwipeState) :
    applyMoves moves (handleTouchStart false sx sy t0 s0) = handleTouchStart false sx sy t0 s0 ∧
    (handleTouchEnd ex ey te th tl (applyMoves moves (handleTouchStart false sx sy t0 s0))).2
      = none := by
  have hs : handleTouchStart false sx sy t0 s0 = ⟨some sx, some sy, t0, false⟩ := rfl
  have hf : (falsy (some sx) || falsy (some sy)) = true := by
    rcases h with rfl | rfl <;> simp [falsy]
  have hm : applyMoves moves (⟨some sx, some sy, t0, false⟩ : SwipeState)
      = ⟨some sx, some sy, t0, false⟩ :=
    applyMoves_falsy moves ⟨some sx, some sy, t0, false⟩ hf
  rw [hs, hm]
  refine ⟨rfl, ?_⟩
  unfold handleTouchEnd
  dsimp only
  rw [if_pos hf]

/-- C10 witness: a gesture starting exactly on the left screen edge at
(0, 5), moving far right and ending at (300, 300) well past the threshold
within the time limit, still produces no swipe callback. -/
theorem C10_zero_start_witness :
    (handleTouchEnd 300 300 100 50 500
      (applyMoves [(false, 120, 5)] (handleTouchStart false 0 5 0 initialSwipe))).2 = none := by
  have h := C10_zero_start_never_recognized 0 5 (Or.inl rfl) 0 [(false, 120, 5)]
    300 300 100 50 500 initialSwipe
  exact h.2

end ComfyBros
